import Mathlib

/-!
Shallow embedding of the genai-factory object mapper and generic SQL data
access engine, translated from the repository sources:

* `controller/src/schemas/base.py` — the pydantic `Base` class with
  `to_dict`, `from_orm_object`, `to_orm_object`, `merge_into_orm_object`
  and the `metadata_fields` list (the variant used by
  `controller/src/db_clients/sql.py`);
* `controller/src/model.py` — the older variant of the same class with its
  own `metadata_fields` list (the mapper functions are parameterised over
  the `metadata_fields` / `_top_level_fields` lists so both variants are
  instances of one embedding);
* `controller/src/db/sql.py` — the ORM tables, `update_labels` and the
  `Project.__init__` constructor;
* `controller/src/db_clients/sql.py` — the generic `_create`, `_get`,
  `_delete`, `_update`, `_list` verbs of `SQLClient`;
* `controller/src/db_clients/base.py` — `Client._process_output`.

Modelling conventions:

* Python scalar values are the inductive `Value`; `Value.vnull` models
  Python `None` (an SQL NULL column, a null JSON entry, an unset optional
  pydantic field).
* A pydantic API object is `ApiObject`: its non-label fields as an ordered
  association list (pydantic declaration order; a pydantic object never has
  two fields with one name), plus the `labels` field kept as a separate
  component.  In every variant of the source `labels` is a member of
  `metadata_fields`, and both `to_orm_object` and `merge_into_orm_object`
  pop it out of the flattened dict before the column/spec split, so keeping
  it as a separate component is equivalent to keeping the dict key.
* A persisted row is `OrmObject`: the plain columns as an association
  list, the schema-less `spec` JSON column (`Option`, `none` when the
  column is absent or NULL), and the owned label rows.  ORM constructors
  are modelled as functions receiving the column dict and the spec dict
  (the declarative constructor assigns each keyword argument to its
  column); `projectCtor` models the `Project.__init__` override that
  installs the `_GENAI_FACTORY` label.
* Timestamps are server-assigned (`default=` / `onupdate=` on the column
  definitions); the engine model does not advance them, it only reflects
  what the mapped functions read and write, which is what the claims about
  the mapper and the verbs are concerned with.
* `session.commit` of `_create` raises `IntegrityError` exactly when a
  uniqueness constraint declared in the schema is violated.  The only
  uniqueness constraints declared in `controller/src/db/sql.py` are the
  per-entity label tables `UniqueConstraint("name", "parent")`; the entity
  tables have the fresh uuid `id` as primary key and declare no unique
  constraint on `name`.
-/

namespace GenaiFactory

/-- A Python scalar value as it appears in the flattened field dicts,
columns and label values of the source; `vnull` models Python `None`. -/
inductive Value where
  | vstr : String → Value
  | vbool : Bool → Value
  | vnat : Nat → Value
  | vnull : Value
  deriving DecidableEq, Repr

/-- Python `v is None`. -/
def Value.isNone : Value → Bool
  | Value.vnull => true
  | _ => false

/-- Python `str(v)`, used only to build error-message strings. -/
def valueStr : Value → String
  | Value.vstr s => s
  | Value.vbool true => "True"
  | Value.vbool false => "False"
  | Value.vnat n => toString n
  | Value.vnull => "None"

/-- A row of one of the `<entity>_labels` tables
(`make_label` in `controller/src/db/sql.py`): autoincrement `id`
(`none` until the row is flushed), `name`, `value`, `parent`. -/
structure Label where
  id : Option Nat
  name : String
  value : Value
  parent : Value
  deriving DecidableEq, Repr

/-- A persisted entity row: its plain columns as an ordered dict, the
schema-less `spec` JSON column, and its owned label rows. -/
structure OrmObject where
  columns : List (String × Value)
  spec : Option (List (String × Value))
  labels : List Label
  deriving DecidableEq, Repr

/-- A typed API object (a pydantic `Base` value): the flattened non-label
fields in declaration order, and the `labels` field (a name → value dict,
`none` when the field is `None`). -/
structure ApiObject where
  fields : List (String × Value)
  labels : Option (List (String × Value))
  deriving DecidableEq, Repr

/-- Python dict lookup `d[k]` / `d.get(k)` on an association list. -/
def getVal : List (String × Value) → String → Option Value
  | [], _ => none
  | kv :: rest, k => if kv.1 = k then some kv.2 else getVal rest k

/-- Python dict assignment `d[k] = v`: replaces the value in place when the
key is present (keeping its position), appends the pair otherwise. -/
def setKey : List (String × Value) → String → Value → List (String × Value)
  | [], k, v => [(k, v)]
  | kv :: rest, k, v => if kv.1 = k then (k, v) :: rest else kv :: setKey rest k v

/-- Python `d.update(e)`: assign every entry of `e` into `d` in order. -/
def dictUpdate (d e : List (String × Value)) : List (String × Value) :=
  e.foldl (fun acc kv => setKey acc kv.1 kv.2) d

/-- The dict comprehension `old = {label.name: label for label in obj.labels}`
of the source builds a name → label map in which a later duplicate name
overrides an earlier one, so the lookup scans from the end. -/
def lookupLabelLast (ls : List Label) (n : String) : Option Label :=
  ls.reverse.find? (fun l => decide (l.name = n))

/-- The `name` attribute of a row (`obj.name` in the source). -/
def rowName (r : OrmObject) : Value :=
  (getVal r.columns "name").getD Value.vnull

/-- The `metadata_fields` list of `controller/src/schemas/base.py`. -/
def metadata_fields : List String :=
  ["name", "description", "labels", "owner_name", "created", "updated", "version"]

/-- The `metadata_fields` list of `controller/src/model.py`. -/
def metadata_fields_model : List String :=
  ["uid", "name", "description", "labels", "owner_id", "created", "updated", "version"]

/-- `Base.to_dict` restricted to the parameters the mapper uses
(`drop_none`; `short=False`, `drop_metadata=False`, `to_datestr=False`):
the flattened non-label fields, with `None` values dropped when
`drop_none` holds.  The `labels` entry of the Python dict is carried by
the `labels` component of `ApiObject` and handled by each caller exactly
where the source pops it. -/
def to_dict (o : ApiObject) (dropNone : Bool) : List (String × Value) :=
  if dropNone then o.fields.filter (fun kv => !(Value.isNone kv.2)) else o.fields

/-- Python equality `k == l` between a string and a list of strings:
values of different types never compare equal, so the result is `false`. -/
def pyStrEqList (_k : String) (_l : List String) : Bool := false

/-- The Python membership test `k in [metadata_fields + self._top_level_fields]`
as written in `merge_into_orm_object` (note the square brackets in the
source): the container is the one-element list whose sole element is the
concatenated list, so the test compares the string `k` with that list and
is `false` for every `k`. -/
def strInListSingleton (k : String) (xs : List String) : Bool :=
  [xs].any (fun l => pyStrEqList k l)

/-- `Base.from_orm_object`: read every table column into a flat dict, pop
the `spec` column and merge its keys into the dict, and convert the label
rows into a name → value mapping when the row has any (`if obj.labels:`). -/
def from_orm_object (r : OrmObject) : ApiObject :=
  { fields := dictUpdate r.columns (r.spec.getD []),
    labels :=
      match r.labels with
      | [] => none
      | ls => some (ls.map (fun l => (l.name, l.value))) }

/-- The declarative ORM constructor `obj_class(**obj_dict)` for the tables
without an `__init__` override: every keyword argument is assigned to its
column, the `spec` keyword to the `spec` column, and the label collection
starts empty. -/
def defaultCtor (cols spec : List (String × Value)) : OrmObject :=
  { columns := cols, spec := some spec, labels := [] }

/-- `update_labels` from `controller/src/db/sql.py` (the `sqldb.py` variant
is identical): build the name → label map of the existing labels, clear the
collection, then for each input pair reuse (and mutate in place) the
existing label row when the name matches, and append a fresh label row
owned by the object otherwise. -/
def update_labels (obj : OrmObject) (labels : List (String × Value)) : OrmObject :=
  { obj with labels :=
      labels.foldl (fun acc nv =>
        match lookupLabelLast obj.labels nv.1 with
        | some l => acc ++ [{ l with value := nv.2 }]
        | none => acc ++ [⟨none, nv.1, nv.2, rowName obj⟩]) [] }

/-- The `Project.__init__` constructor path used by `to_orm_object`
(`controller/src/db/sql.py`): after the base assignments it calls
`update_labels(self, ...)` with the single `_GENAI_FACTORY` entry. -/
def projectCtor (cols spec : List (String × Value)) : OrmObject :=
  update_labels { columns := cols, spec := some spec, labels := [] }
    [("_GENAI_FACTORY", Value.vbool true)]

/-- `BaseTable.__init__` from `controller/src/db/sql.py`: assign the six
constructor arguments, with `labels or []` for the label collection. -/
def BaseTable_init (idv namev version description owner_id : Value)
    (labels : Option (List Label)) : OrmObject :=
  { columns := [("id", idv), ("name", namev), ("version", version),
                ("description", description), ("owner_id", owner_id)],
    spec := none, labels := labels.getD [] }

/-- `Project.__init__` from `controller/src/db/sql.py`: the base
constructor followed by `update_labels(self, ...)` with the single
`_GENAI_FACTORY` entry. -/
def Project_init (idv namev version description owner_id : Value)
    (labels : Option (List Label)) : OrmObject :=
  update_labels (BaseTable_init idv namev version description owner_id labels)
    [("_GENAI_FACTORY", Value.vbool true)]

/-- `Base.to_orm_object(obj_class, uuid=None)`: flatten keeping `None`
values, split the dict into the columns in
`metadata_fields + _top_level_fields` minus the two timestamps and the
spec bag of everything else, pop the labels, assign the generated id when
one is supplied, construct the row, and when the labels dict is truthy
clear the label collection of the constructed row and append a fresh label row
per entry, owned by the row via its `name`. -/
def to_orm_object (mf tf : List String)
    (ctor : List (String × Value) → List (String × Value) → OrmObject)
    (o : ApiObject) (uuid : Option Value) : OrmObject :=
  let struct := to_dict o false
  let obj_dict := struct.filter (fun kv =>
    decide (kv.1 ∈ mf ++ tf) && !decide (kv.1 ∈ (["created", "updated"] : List String)))
  let spec := struct.filter (fun kv => !decide (kv.1 ∈ mf ++ tf))
  let obj_dict2 :=
    match uuid with
    | some u => setKey obj_dict "id" u
    | none => obj_dict
  let obj := ctor obj_dict2 spec
  match o.labels with
  | some (nv :: rest) =>
      { obj with labels := (nv :: rest).map (fun p => (⟨none, p.1, p.2, rowName obj⟩ : Label)) }
  | _ => obj

/-- One iteration of the field loop of `merge_into_orm_object`: write the
field onto the row when it is in `metadata_fields + _top_level_fields` and
not a timestamp, and write it into the spec dict when
`k not in [metadata_fields + self._top_level_fields]` — the bracketed
membership test of the source, which holds for every string key. -/
def mergeStep (mf tf : List String)
    (acc : List (String × Value) × List (String × Value))
    (kv : String × Value) : List (String × Value) × List (String × Value) :=
  let cols :=
    if decide (kv.1 ∈ mf ++ tf) && !decide (kv.1 ∈ (["created", "updated"] : List String)) then
      setKey acc.1 kv.1 kv.2
    else acc.1
  let sp :=
    if !(strInListSingleton kv.1 (mf ++ tf)) then setKey acc.2 kv.1 kv.2 else acc.2
  (cols, sp)

/-- `Base.merge_into_orm_object`: flatten dropping `None` values, start
from the existing spec of the row (`orm_object.spec or ` empty), run the field
loop, store the spec back, and when the popped labels dict is truthy merge
the labels — reusing an existing label row in place when the name matches
and its new value is not `None` (dropping it when it is), appending a
fresh owned label row otherwise. -/
def merge_into_orm_object (mf tf : List String) (o : ApiObject) (r : OrmObject) : OrmObject :=
  let struct := to_dict o true
  let res := struct.foldl (mergeStep mf tf) (r.columns, r.spec.getD [])
  let r1 : OrmObject := { r with columns := res.1, spec := some res.2 }
  match o.labels with
  | some (nv :: rest) =>
      { r1 with labels :=
          (nv :: rest).foldl (fun acc p =>
            match lookupLabelLast r.labels p.1 with
            | some l =>
                if !(Value.isNone p.2) then acc ++ [{ l with value := p.2 }] else acc
            | none => acc ++ [⟨none, p.1, p.2, rowName r1⟩]) [] }
  | _ => r1

/-- The output mode of a list call (`schemas.OutputMode`). -/
inductive OutputMode where
  | names | short | dict | details
  deriving DecidableEq, Repr

/-- The payload of a response envelope: a single mapped-back object
(create/get/update), or a list projection (list). -/
inductive RespData where
  | obj : ApiObject → RespData
  | objs : List ApiObject → RespData
  | names : List Value → RespData
  | dicts : List ApiObject → RespData
  deriving DecidableEq, Repr

/-- The `ApiResponse` envelope of `controller/src/model.py`. -/
structure ApiResponse where
  success : Bool
  data : Option RespData := none
  error : Option String := none
  deriving DecidableEq, Repr

/-- An exception escaping a verb uncaught: `MultipleResultsFound` raised by
`Query.one_or_none` when the filter matches more than one row. -/
inductive DbError where
  | multipleResultsFound
  deriving DecidableEq, Repr

/-- `Query.one_or_none`: `none` for zero rows, the row for one, and the
`MultipleResultsFound` exception for more. -/
def one_or_none (rows : List OrmObject) : Except DbError (Option OrmObject) :=
  match rows with
  | [] => Except.ok none
  | [r] => Except.ok (some r)
  | _ => Except.error DbError.multipleResultsFound

/-- `Query.filter_by(**kwargs)`: exact equality of each keyword against the
column of that name on the row. -/
def rowMatches (filterKwargs : List (String × Value)) (r : OrmObject) : Bool :=
  filterKwargs.all (fun kv => decide (getVal r.columns kv.1 = some kv.2))

/-- Renders the kwargs of a filter for the not-found error message. -/
def kwargsRepr (filterKwargs : List (String × Value)) : String :=
  String.intercalate ", " (filterKwargs.map (fun kv => kv.1 ++ "=" ++ valueStr kv.2))

/-- `to_dict(short=short)` as `_process_output` calls it (`drop_none`
defaults to `True`): drop `None` fields, and with `short` also drop the
`_extra_fields` of the entity.  The `labels` dict entry is dropped on the same
conditions as any other field. -/
def to_dict_out (extra : List String) (short : Bool) (o : ApiObject) : ApiObject :=
  { fields := o.fields.filter (fun kv =>
      !(Value.isNone kv.2) && !(short && decide (kv.1 ∈ extra))),
    labels :=
      if o.labels.isNone || (short && decide ("labels" ∈ extra)) then none else o.labels }

/-- `Client._process_output` from `controller/src/db_clients/base.py`:
`Names` projects the name column, otherwise every row is mapped back
through `from_orm_object`; `Details` returns the objects, `Short` and
`Dict` their `to_dict` projections. -/
def process_output (extra : List String) (items : List OrmObject) (mode : OutputMode) :
    RespData :=
  match mode with
  | OutputMode.names => RespData.names (items.map rowName)
  | OutputMode.details => RespData.objs (items.map from_orm_object)
  | OutputMode.short => RespData.dicts ((items.map from_orm_object).map (to_dict_out extra true))
  | OutputMode.dict => RespData.dicts ((items.map from_orm_object).map (to_dict_out extra false))

/-- The labels of the new row collide with the labels of an existing row on the
`(name, parent)` pair of some label — the only uniqueness constraint the
schema declares (`UniqueConstraint("name", "parent")` on each
`<entity>_labels` table), hence the only way `session.commit()` of
`_create` raises `IntegrityError`. -/
def labelPairConflict (db : List OrmObject) (r : OrmObject) : Bool :=
  r.labels.any (fun l => db.any (fun r2 => r2.labels.any (fun l2 =>
    decide (l2.name = l.name) && decide (l2.parent = l.parent))))

/-- `SQLClient._create`: generate a uid, map the object to a row with
`to_orm_object(db_class, uuid=uid)`, add and commit; on `IntegrityError`
return the failure envelope naming the object, otherwise return the
success envelope with the row mapped back. -/
def sqlCreate (mf tf : List String)
    (ctor : List (String × Value) → List (String × Value) → OrmObject)
    (db : List OrmObject) (dbClassName : String) (o : ApiObject) (uid : String) :
    List OrmObject × ApiResponse :=
  let dbObject := to_orm_object mf tf ctor o (some (Value.vstr uid))
  if labelPairConflict db dbObject then
    (db, { success := false, data := none,
           error := some (dbClassName ++ " " ++
             valueStr ((getVal o.fields "name").getD Value.vnull) ++ " already exists") })
  else
    (db ++ [dbObject],
     { success := true, data := some (RespData.obj (from_orm_object dbObject)), error := none })

/-- `SQLClient._get`: `one_or_none` over the exact-match filter; `none`
becomes the not-found failure envelope, a row becomes the success envelope
with the row mapped back, and more than one row lets the
`MultipleResultsFound` exception escape. -/
def sqlGet (db : List OrmObject) (dbClassName : String)
    (filterKwargs : List (String × Value)) : Except DbError ApiResponse :=
  match one_or_none (db.filter (rowMatches filterKwargs)) with
  | Except.error e => Except.error e
  | Except.ok none =>
      Except.ok { success := false, data := none,
                  error := some (dbClassName ++ " object (" ++
                    kwargsRepr filterKwargs ++ ") not found") }
  | Except.ok (some r) =>
      Except.ok { success := true, data := some (RespData.obj (from_orm_object r)), error := none }

/-- `SQLClient._delete`: delete every row matching the filter (its label
rows go with it — the relationship cascades `all, delete-orphan`), commit,
and return the success envelope unconditionally. -/
def sqlDelete (db : List OrmObject) (filterKwargs : List (String × Value)) :
    List OrmObject × ApiResponse :=
  (db.filter (fun r => !(rowMatches filterKwargs r)), { success := true })

/-- `SQLClient._update`: load the row with `one_or_none` over the
exact-match filter; when found, mutate it in place with
`merge_into_orm_object`, commit and return the success envelope with the
row mapped back; when absent return the not-found failure envelope; more
than one match lets the `MultipleResultsFound` exception escape. -/
def sqlUpdate (mf tf : List String) (db : List OrmObject) (dbClassName : String)
    (o : ApiObject) (filterKwargs : List (String × Value)) :
    Except DbError (List OrmObject × ApiResponse) :=
  match one_or_none (db.filter (rowMatches filterKwargs)) with
  | Except.error e => Except.error e
  | Except.ok none =>
      Except.ok (db, { success := false, data := none,
                       error := some (dbClassName ++ " object (" ++
                         kwargsRepr filterKwargs ++ ") not found") })
  | Except.ok (some r) =>
      let merged := merge_into_orm_object mf tf o r
      Except.ok (db.map (fun x => if rowMatches filterKwargs x then merged else x),
        { success := true, data := some (RespData.obj (from_orm_object merged)), error := none })

/-- `SQLClient._list`: keep only the keyword filters whose value is not
`None`, query by exact match on those, leave `labels_match` unapplied (the
source only logs that label filtering is unsupported), and project the
result through `_process_output`. -/
def sqlList (extra : List String) (db : List OrmObject) (mode : OutputMode)
    (filters : List (String × Option Value)) (labelsMatch : Option (List String)) :
    ApiResponse :=
  let filterKwargs := filters.filterMap (fun kv => kv.2.map (fun v => (kv.1, v)))
  let output := db.filter (rowMatches filterKwargs)
  { success := true, data := some (process_output extra output mode), error := none }

/-- The envelope contract of the spec: failure carries no data and a
message; success carries no error. -/
def envContract (r : ApiResponse) : Prop :=
  (r.success = false → r.data = none ∧ r.error ≠ none) ∧
  (r.success = true → r.error = none)

/-- The store component of an update result (the unchanged store when the
call failed before writing; the empty store is never returned by
`sqlUpdate` itself and only stands in for the escaped-exception case). -/
def updatedDb (x : Except DbError (List OrmObject × ApiResponse)) : List OrmObject :=
  match x with
  | Except.ok p => p.1
  | Except.error _ => []

section AssocLemmas

theorem getVal_setKey_self (d : List (String × Value)) (k : String) (v : Value) :
    getVal (setKey d k v) k = some v := by
  induction d with
  | nil => simp [setKey, getVal]
  | cons kv rest ih =>
      by_cases h : kv.1 = k
      · simp [setKey, h, getVal]
      · simp [setKey, h, getVal, ih]

theorem getVal_setKey_ne (d : List (String × Value)) (k k' : String) (v : Value)
    (h : k' ≠ k) : getVal (setKey d k' v) k = getVal d k := by
  induction d with
  | nil => simp [setKey, getVal, h]
  | cons kv rest ih =>
      by_cases hk : kv.1 = k'
      · simp [setKey, hk, getVal, h]
      · simp only [setKey, hk, if_neg hk, getVal]
        by_cases hk2 : kv.1 = k
        · simp [hk2]
        · simp [hk2, ih]

theorem getVal_filterKey (l : List (String × Value)) (p : String → Bool) (k : String) :
    getVal (l.filter (fun kv => p kv.1)) k = if p k then getVal l k else none := by
  induction l with
  | nil => simp [getVal]
  | cons kv rest ih =>
      by_cases hp : p kv.1
      · rw [List.filter_cons_of_pos (by simpa using hp)]
        by_cases hk : kv.1 = k
        · subst hk
          simp [getVal, hp]
        · simp [getVal, hk, ih]
      · rw [List.filter_cons_of_neg (by simpa using hp)]
        by_cases hk : kv.1 = k
        · subst hk
          rw [ih]
          simp [hp]
        · simp [getVal, hk, ih]

theorem getVal_dictUpdate_notin (d e : List (String × Value)) (k : String)
    (h : ∀ p ∈ e, p.1 ≠ k) : getVal (dictUpdate d e) k = getVal d k := by
  induction e generalizing d with
  | nil => simp [dictUpdate]
  | cons kv rest ih =>
      have hkv : kv.1 ≠ k := h kv (List.mem_cons_self kv rest)
      have hrest : ∀ p ∈ rest, p.1 ≠ k := fun p hp => h p (List.mem_cons_of_mem kv hp)
      simp only [dictUpdate, List.foldl_cons]
      rw [show (List.foldl (fun acc kv => setKey acc kv.1 kv.2) (setKey d kv.1 kv.2) rest)
            = dictUpdate (setKey d kv.1 kv.2) rest from rfl]
      rw [ih (setKey d kv.1 kv.2) hrest, getVal_setKey_ne d k kv.1 kv.2 hkv]

theorem getVal_dictUpdate_mem (d e : List (String × Value)) (k : String) (v : Value)
    (hnd : (e.map Prod.fst).Nodup) (h : getVal e k = some v) :
    getVal (dictUpdate d e) k = some v := by
  induction e generalizing d with
  | nil => simp [getVal] at h
  | cons kv rest ih =>
      simp only [List.map_cons, List.nodup_cons] at hnd
      simp only [dictUpdate, List.foldl_cons]
      rw [show (List.foldl (fun acc kv => setKey acc kv.1 kv.2) (setKey d kv.1 kv.2) rest)
            = dictUpdate (setKey d kv.1 kv.2) rest from rfl]
      by_cases hk : kv.1 = k
      · subst hk
        have heq : kv.2 = v := by simpa [getVal] using h
        have hrest : ∀ p ∈ rest, p.1 ≠ kv.1 := by
          intro p hp hpk
          exact hnd.1 (hpk ▸ List.mem_map_of_mem Prod.fst hp)
        rw [getVal_dictUpdate_notin _ _ _ hrest, getVal_setKey_self d kv.1 kv.2, heq]
      · simp only [getVal, if_neg hk] at h
        exact ih (setKey d kv.1 kv.2) hnd.2 h

theorem keys_nodup_filter (l : List (String × Value)) (p : String × Value → Bool)
    (h : (l.map Prod.fst).Nodup) : ((l.filter p).map Prod.fst).Nodup :=
  h.sublist ((l.filter_sublist).map Prod.fst)

end AssocLemmas

/-- An object that explicitly sets the `created` timestamp (a
`BaseWithMetadata` value with `name` and `created` set). -/
def timestampObj : ApiObject :=
  { fields := [("name", Value.vstr "n"), ("created", Value.vstr "2024-01-01")],
    labels := none }

/-- A Model-shaped object: metadata fields, the `base_model` top-level
field, the `path` spec field, and one label. -/
def rtObj : ApiObject :=
  { fields := [("name", Value.vstr "m"), ("description", Value.vnull),
               ("created", Value.vnull), ("updated", Value.vnull),
               ("version", Value.vstr "v1"), ("project_id", Value.vstr "p1"),
               ("model_type", Value.vstr "model"), ("base_model", Value.vstr "llama"),
               ("path", Value.vstr "/m")],
    labels := some [("x", Value.vstr "1")] }

section MapperLemmas

theorem getVal_filter_split (l : List (String × Value)) (mf tf : List String) (k : String) :
    getVal (l.filter (fun kv =>
        decide (kv.1 ∈ mf ++ tf) &&
          !decide (kv.1 ∈ (["created", "updated"] : List String)))) k =
      if decide (k ∈ mf ++ tf) && !decide (k ∈ (["created", "updated"] : List String)) then
        getVal l k
      else none :=
  getVal_filterKey l
    (fun s => decide (s ∈ mf ++ tf) && !decide (s ∈ (["created", "updated"] : List String))) k

theorem getVal_filter_spec (l : List (String × Value)) (mf tf : List String) (k : String) :
    getVal (l.filter (fun kv => !decide (kv.1 ∈ mf ++ tf))) k =
      if !decide (k ∈ mf ++ tf) then getVal l k else none :=
  getVal_filterKey l (fun s => !decide (s ∈ mf ++ tf)) k

theorem to_orm_default_columns (mf tf : List String) (o : ApiObject) (uuid : Option Value) :
    (to_orm_object mf tf defaultCtor o uuid).columns =
      (match uuid with
       | some u =>
           setKey (o.fields.filter (fun kv =>
             decide (kv.1 ∈ mf ++ tf) &&
               !decide (kv.1 ∈ (["created", "updated"] : List String)))) "id" u
       | none =>
           o.fields.filter (fun kv =>
             decide (kv.1 ∈ mf ++ tf) &&
               !decide (kv.1 ∈ (["created", "updated"] : List String)))) := by
  rcases hl : o.labels with - | ls
  · simp [to_orm_object, to_dict, defaultCtor, hl]
  · cases ls with
    | nil => simp [to_orm_object, to_dict, defaultCtor, hl]
    | cons a as => simp [to_orm_object, to_dict, defaultCtor, hl]

theorem to_orm_default_spec (mf tf : List String) (o : ApiObject) (uuid : Option Value) :
    (to_orm_object mf tf defaultCtor o uuid).spec =
      some (o.fields.filter (fun kv => !decide (kv.1 ∈ mf ++ tf))) := by
  rcases hl : o.labels with - | ls
  · simp [to_orm_object, to_dict, defaultCtor, hl]
  · cases ls with
    | nil => simp [to_orm_object, to_dict, defaultCtor, hl]
    | cons a as => simp [to_orm_object, to_dict, defaultCtor, hl]

theorem roundtrip_field (mf tf : List String) (o : ApiObject) (uuid : Option Value)
    (hnd : (o.fields.map Prod.fst).Nodup)
    (hid : uuid = none ∨ "id" ∉ mf ++ tf)
    (k : String) (v : Value)
    (hk : k ∉ (["created", "updated"] : List String))
    (hv : getVal o.fields k = some v) :
    getVal (from_orm_object (to_orm_object mf tf defaultCtor o uuid)).fields k = some v := by
  have hfields : (from_orm_object (to_orm_object mf tf defaultCtor o uuid)).fields =
      dictUpdate (to_orm_object mf tf defaultCtor o uuid).columns
        ((to_orm_object mf tf defaultCtor o uuid).spec.getD []) := rfl
  rw [hfields, to_orm_default_columns, to_orm_default_spec]
  simp only [Option.getD_some]
  by_cases hmem : k ∈ mf ++ tf
  · have hspecnone : ∀ p ∈ o.fields.filter (fun kv => !decide (kv.1 ∈ mf ++ tf)),
        p.1 ≠ k := by
      intro p hp hpk
      have := (List.mem_filter.mp hp).2
      simp only [Bool.not_eq_true', decide_eq_false_iff_not] at this
      exact this (hpk ▸ hmem)
    rw [getVal_dictUpdate_notin _ _ _ hspecnone]
    have hbase : getVal (o.fields.filter (fun kv =>
        decide (kv.1 ∈ mf ++ tf) &&
          !decide (kv.1 ∈ (["created", "updated"] : List String)))) k = some v := by
      rw [getVal_filter_split]
      simp [hmem, hk, hv]
    cases uuid with
    | none => simpa using hbase
    | some u =>
        have hidm : "id" ∉ mf ++ tf := by
          rcases hid with h | h

          · exact absurd h (by simp)
          · exact h
        have hkid : "id" ≠ k := fun h => hidm (h ▸ hmem)
        simpa [getVal_setKey_ne _ _ _ _ hkid] using hbase
  · have hspec : getVal (o.fields.filter (fun kv => !decide (kv.1 ∈ mf ++ tf))) k = some v := by
      rw [getVal_filter_spec]
      simp [hmem, hv]
    exact getVal_dictUpdate_mem _ _ _ _
      (keys_nodup_filter o.fields _ hnd) hspec

/-- Claim C1 (corrected).  For a valid entity API object, converting with
`to_orm_object` and back with `from_orm_object` preserves every field the
caller set except the two timestamp fields `created` and `updated`: those
are excluded from the columns (the split drops them as server-assigned)
and from the spec bag (they belong to `metadata_fields`), so they do not
round-trip; every other field, and a nonempty labels mapping, round-trips
exactly. -/
theorem C1_roundtrip_amended :
    ∀ (mf tf : List String) (o : ApiObject) (uuid : Option Value),
      (o.fields.map Prod.fst).Nodup →
      (uuid = none ∨ "id" ∉ mf ++ tf) →
      (∀ k v, k ∉ (["created", "updated"] : List String) → getVal o.fields k = some v →
        getVal (from_orm_object (to_orm_object mf tf defaultCtor o uuid)).fields k = some v) ∧
      (∀ nv rest, o.labels = some (nv :: rest) →
        (from_orm_object (to_orm_object mf tf defaultCtor o uuid)).labels = some (nv :: rest)) := by
  intro mf tf o uuid hnd hid
  constructor
  · intro k v hk hv
    exact roundtrip_field mf tf o uuid hnd hid k v hk hv
  · intro nv rest hl
    simp [to_orm_object, from_orm_object, to_dict, defaultCtor, hl, List.map_map,
      Function.comp_def]

/-- Claim C1 counterexample.  The object that sets `name` and `created`
(to a non-null value, so the null-dropping policy is not involved) comes
back from the round-trip with no `created` field at all: the claim as
stated — equality on every field the caller explicitly set — fails at this
input. -/
theorem C1_counterexample :
    getVal timestampObj.fields "created" = some (Value.vstr "2024-01-01") ∧
    Value.isNone (Value.vstr "2024-01-01") = false ∧
    getVal (from_orm_object
      (to_orm_object metadata_fields [] defaultCtor timestampObj none)).fields "created" =
      none := by
  decide

/-- Claim C1 witness: the amended round-trip at a concrete Model-shaped
object with a top-level field, a spec field and a label. -/
theorem C1_witness :
    getVal (from_orm_object (to_orm_object metadata_fields
        ["model_type", "base_model", "task"] defaultCtor rtObj
        (some (Value.vstr "u1")))).fields "path" = some (Value.vstr "/m") ∧
    getVal (from_orm_object (to_orm_object metadata_fields
        ["model_type", "base_model", "task"] defaultCtor rtObj
        (some (Value.vstr "u1")))).fields "base_model" = some (Value.vstr "llama") ∧
    (from_orm_object (to_orm_object metadata_fields
        ["model_type", "base_model", "task"] defaultCtor rtObj
        (some (Value.vstr "u1")))).labels = some [("x", Value.vstr "1")] :=
  ⟨(C1_roundtrip_amended metadata_fields ["model_type", "base_model", "task"] rtObj
      (some (Value.vstr "u1")) (by decide) (Or.inr (by decide))).1 "path" (Value.vstr "/m")
      (by decide) (by decide),
   (C1_roundtrip_amended metadata_fields ["model_type", "base_model", "task"] rtObj
      (some (Value.vstr "u1")) (by decide) (Or.inr (by decide))).1 "base_model"
      (Value.vstr "llama") (by decide) (by decide),
   (C1_roundtrip_amended metadata_fields ["model_type", "base_model", "task"] rtObj
      (some (Value.vstr "u1")) (by decide) (Or.inr (by decide))).2 ("x", Value.vstr "1") []
      (by decide)⟩

end MapperLemmas

/-- The input of a merge: an object with `name` and `description` set. -/
def mergeSrcObj : ApiObject :=
  { fields := [("name", Value.vstr "n"), ("description", Value.vstr "d")],
    labels := none }

/-- A stored row with an empty spec bag, the target of the merge. -/
def mergeTgtRow : OrmObject :=
  { columns := [("id", Value.vstr "u0"), ("name", Value.vstr "n"),
                ("description", Value.vnull)],
    spec := some [], labels := [] }

/-- Claim C2 (code bug, evaluated at the failing input).  `description` is
a `metadata_fields` member, and the merge does write it onto the
column — but it also writes it into the spec blob, because the membership
test `k not in [metadata_fields + self._top_level_fields]` of the source
(see `strInListSingleton`) compares the string with a list and therefore
holds for every key.  The claim — a field enters the spec blob if and only
if it is outside the union — fails on the code. -/
theorem C2_metadata_field_enters_spec :
    ("description" ∈ metadata_fields) ∧
    getVal (merge_into_orm_object metadata_fields [] mergeSrcObj
      mergeTgtRow).columns "description" = some (Value.vstr "d") ∧
    getVal ((merge_into_orm_object metadata_fields [] mergeSrcObj
      mergeTgtRow).spec.getD []) "description" = some (Value.vstr "d") := by
  decide

/-- A partial update object: a `Project` value with only `name` (needed
for the filter) and `description` set; `labels`, `created` and `updated`
stay `None` and `version` keeps its pydantic default, the empty string. -/
def descOnlyObj (sn sd : String) : ApiObject :=
  { fields := [("name", Value.vstr sn), ("description", Value.vstr sd),
               ("created", Value.vnull), ("updated", Value.vnull),
               ("version", Value.vstr "")],
    labels := none }

theorem merge_desc_only_eq (sn sd : String) (r0 : OrmObject) :
    merge_into_orm_object metadata_fields [] (descOnlyObj sn sd) r0 =
      { r0 with
        columns := setKey (setKey (setKey r0.columns "name" (Value.vstr sn))
          "description" (Value.vstr sd)) "version" (Value.vstr ""),
        spec := some (setKey (setKey (setKey (r0.spec.getD []) "name" (Value.vstr sn))
          "description" (Value.vstr sd)) "version" (Value.vstr "")) } := rfl

/-- Claim C3 (corrected).  An update whose input object sets only
`description` updates exactly the `name`, `description` and `version`
columns (`name` to the very value used for the filter, `version` to the
pydantic default of the input — the empty string — so a stored non-empty
version is clobbered), leaves every other column, every pre-existing
spec-bag key outside those three names, and the label rows unchanged, and
additionally copies the three written fields into the spec blob;
`date_updated` is advanced by the store on commit, outside the mapper. -/
theorem C3_update_desc_amended :
    ∀ (db : List OrmObject) (r0 : OrmObject) (sn sd : String),
      db.filter (rowMatches [("name", Value.vstr sn)]) = [r0] →
      sqlUpdate metadata_fields [] db "Project" (descOnlyObj sn sd)
          [("name", Value.vstr sn)] =
        Except.ok
          (db.map (fun x => if rowMatches [("name", Value.vstr sn)] x then
             merge_into_orm_object metadata_fields [] (descOnlyObj sn sd) r0 else x),
           { success := true,
             data := some (RespData.obj (from_orm_object
               (merge_into_orm_object metadata_fields [] (descOnlyObj sn sd) r0))),
             error := none }) ∧
      (∀ k, k ∉ (["name", "description", "version"] : List String) →
        getVal (merge_into_orm_object metadata_fields [] (descOnlyObj sn sd) r0).columns k =
          getVal r0.columns k) ∧
      getVal (merge_into_orm_object metadata_fields [] (descOnlyObj sn sd) r0).columns
        "description" = some (Value.vstr sd) ∧
      getVal (merge_into_orm_object metadata_fields [] (descOnlyObj sn sd) r0).columns
        "version" = some (Value.vstr "") ∧
      (∀ k w, k ∉ (["name", "description", "version"] : List String) →
        getVal (r0.spec.getD []) k = some w →
        getVal ((merge_into_orm_object metadata_fields [] (descOnlyObj sn sd) r0).spec.getD [])
          k = some w) ∧
      (merge_into_orm_object metadata_fields [] (descOnlyObj sn sd) r0).labels = r0.labels := by
  intro db r0 sn sd hfind
  refine ⟨?_, ?_, ?_, ?_, ?_, ?_⟩
  · simp [sqlUpdate, one_or_none, hfind]
  · intro k hk
    simp only [List.mem_cons, List.not_mem_nil, or_false, not_or] at hk
    rw [merge_desc_only_eq]
    simp only
    rw [getVal_setKey_ne _ _ _ _ (Ne.symm hk.2.2), getVal_setKey_ne _ _ _ _ (Ne.symm hk.2.1),
      getVal_setKey_ne _ _ _ _ (Ne.symm hk.1)]
  · rw [merge_desc_only_eq]
    simp only
    rw [getVal_setKey_ne _ _ _ _ (by decide), getVal_setKey_self]
  · rw [merge_desc_only_eq]
    simp only
    rw [getVal_setKey_self]
  · intro k w hk hw
    simp only [List.mem_cons, List.not_mem_nil, or_false, not_or] at hk
    rw [merge_desc_only_eq]
    simp only [Option.getD_some]
    rw [getVal_setKey_ne _ _ _ _ (Ne.symm hk.2.2), getVal_setKey_ne _ _ _ _ (Ne.symm hk.2.1),
      getVal_setKey_ne _ _ _ _ (Ne.symm hk.1)]
    exact hw
  · rw [merge_desc_only_eq]

/-- A stored project row with a non-empty version and one spec-bag key. -/
def storedProjectRow : OrmObject :=
  { columns := [("id", Value.vstr "u0"), ("name", Value.vstr "n"),
                ("version", Value.vstr "v1"), ("description", Value.vstr "old"),
                ("owner_id", Value.vnull)],
    spec := some [("path", Value.vstr "/p")], labels := [] }

/-- Claim C3 counterexample.  Updating the stored row (version `v1`) with
an object that sets only `description` overwrites the stored `version`
column with the default empty string of the input and copies `name` into the
spec blob — previously stored fields other than `date_updated` change, so
the claim as stated fails at this input. -/
theorem C3_counterexample :
    getVal storedProjectRow.columns "version" = some (Value.vstr "v1") ∧
    (updatedDb (sqlUpdate metadata_fields [] [storedProjectRow] "Project"
        (descOnlyObj "n" "new") [("name", Value.vstr "n")])).map
      (fun r => getVal r.columns "version") = [some (Value.vstr "")] ∧
    getVal (storedProjectRow.spec.getD []) "name" = none ∧
    (updatedDb (sqlUpdate metadata_fields [] [storedProjectRow] "Project"
        (descOnlyObj "n" "new") [("name", Value.vstr "n")])).map
      (fun r => getVal (r.spec.getD []) "name") = [some (Value.vstr "n")] := by
  decide

/-- Claim C3 witness: the amended update at the concrete stored row — the
pre-existing spec key `path` survives and `description` is written. -/
theorem C3_witness :
    getVal ((merge_into_orm_object metadata_fields [] (descOnlyObj "n" "new")
      storedProjectRow).spec.getD []) "path" = some (Value.vstr "/p") ∧
    getVal (merge_into_orm_object metadata_fields [] (descOnlyObj "n" "new")
      storedProjectRow).columns "description" = some (Value.vstr "new") :=
  ⟨(C3_update_desc_amended [storedProjectRow] storedProjectRow "n" "new"
      (by decide)).2.2.2.2.1 "path" (Value.vstr "/p") (by decide) (by decide),
   (C3_update_desc_amended [storedProjectRow] storedProjectRow "n" "new"
      (by decide)).2.2.1⟩

/-- Claim C7 (confirmed).  With stored labels `x = 1` and `y = 2`, the
label update `y = 3, z = 4` rewrites `y` in place — the resulting label
keeps the identifier of the stored row — and appends a fresh `z` label whose
parent is the name of the entity. -/
theorem C7_label_merge :
    ∀ (obj : OrmObject) (i1 i2 : Nat) (p1 p2 : Value),
      obj.labels = [⟨some i1, "x", Value.vstr "1", p1⟩,
                    ⟨some i2, "y", Value.vstr "2", p2⟩] →
      (update_labels obj [("y", Value.vstr "3"), ("z", Value.vstr "4")]).labels =
        [⟨some i2, "y", Value.vstr "3", p2⟩,
         ⟨none, "z", Value.vstr "4", rowName obj⟩] := by
  intro obj i1 i2 p1 p2 h
  obtain ⟨cols, spec, labels⟩ := obj
  simp only at h
  subst h
  rfl

/-- An entity row with labels `x = 1` (row id 1) and `y = 2` (row id 2). -/
def labeledRow : OrmObject :=
  { columns := [("name", Value.vstr "e")], spec := some [],
    labels := [⟨some 1, "x", Value.vstr "1", Value.vstr "e"⟩,
               ⟨some 2, "y", Value.vstr "2", Value.vstr "e"⟩] }

/-- Claim C7 witness: the label merge at the concrete entity row. -/
theorem C7_witness :
    (update_labels labeledRow [("y", Value.vstr "3"), ("z", Value.vstr "4")]).labels =
      [⟨some 2, "y", Value.vstr "3", Value.vstr "e"⟩,
       ⟨none, "z", Value.vstr "4", Value.vstr "e"⟩] :=
  C7_label_merge labeledRow 1 2 (Value.vstr "e") (Value.vstr "e") (by decide)

/-- Claim C10 (confirmed).  Whatever labels the caller passes to the
`Project` constructor, the constructor ends by replacing the label set:
immediately after construction the labels consist of the single
`_GENAI_FACTORY` label (reusing a caller label row of that name when one
exists, discarding every other caller label). -/
theorem C10_project_ctor_labels :
    ∀ (idv namev version description owner_id : Value) (labels : Option (List Label)),
      (Project_init idv namev version description owner_id labels).labels.map
        (fun l => l.name) = ["_GENAI_FACTORY"] := by
  intro idv namev version description owner_id labels
  unfold Project_init update_labels
  simp only [List.foldl_cons, List.foldl_nil, List.nil_append]
  cases hfind : lookupLabelLast
      (BaseTable_init idv namev version description owner_id labels).labels
      "_GENAI_FACTORY" with
  | none => simp [hfind]
  | some l =>
      have hname : l.name = "_GENAI_FACTORY" := by
        have h0 : List.find? (fun lb => decide (lb.name = "_GENAI_FACTORY"))
            ((BaseTable_init idv namev version description owner_id labels).labels.reverse)
            = some l := by simpa [lookupLabelLast] using hfind
        have h2 := List.find?_some h0
        exact of_decide_eq_true h2
      simp [hfind, hname]

/-- Claim C10 witness: the Project constructor at concrete arguments with
a caller-supplied label that is discarded. -/
theorem C10_witness :
    (Project_init (Value.vstr "u") (Value.vstr "p") (Value.vstr "") Value.vnull Value.vnull
      (some [⟨some 7, "team", Value.vstr "a", Value.vstr "p"⟩])).labels.map
      (fun l => l.name) = ["_GENAI_FACTORY"] :=
  C10_project_ctor_labels (Value.vstr "u") (Value.vstr "p") (Value.vstr "") Value.vnull
    Value.vnull (some [⟨some 7, "team", Value.vstr "a", Value.vstr "p"⟩])

/-- Claim C4 (corrected).  The zero-match and one-match cases of `get` do
come back as envelopes (not-found failure and success respectively), but a
filter matching more than one row makes `one_or_none` raise
`MultipleResultsFound`, which neither `_get` nor `_update` catches: the
exception escapes the verb instead of becoming a `success=false`
envelope. -/
theorem C4_error_boundary_amended :
    ∀ (mf tf : List String) (db : List OrmObject) (cn : String) (o : ApiObject)
      (fs : List (String × Value)),
      (db.filter (rowMatches fs) = [] →
        sqlGet db cn fs = Except.ok
          { success := false, data := none,
            error := some (cn ++ " object (" ++ kwargsRepr fs ++ ") not found") }) ∧
      (∀ r, db.filter (rowMatches fs) = [r] →
        sqlGet db cn fs = Except.ok
          { success := true, data := some (RespData.obj (from_orm_object r)),
            error := none }) ∧
      (∀ r1 r2 rest, db.filter (rowMatches fs) = r1 :: r2 :: rest →
        sqlGet db cn fs = Except.error DbError.multipleResultsFound) ∧
      (∀ r1 r2 rest, db.filter (rowMatches fs) = r1 :: r2 :: rest →
        sqlUpdate mf tf db cn o fs = Except.error DbError.multipleResultsFound) := by
  intro mf tf db cn o fs
  refine ⟨?_, ?_, ?_, ?_⟩
  · intro h
    simp [sqlGet, one_or_none, h]
  · intro r h
    simp [sqlGet, one_or_none, h]
  · intro r1 r2 rest h
    simp [sqlGet, one_or_none, h]
  · intro r1 r2 rest h
    simp [sqlUpdate, one_or_none, h]

/-- Two stored rows sharing the name `a` (nothing prevents this: see the
C5 analysis — `name` carries no uniqueness constraint). -/
def dupRowA : OrmObject :=
  { columns := [("id", Value.vstr "u1"), ("name", Value.vstr "a")],
    spec := some [], labels := [] }

/-- The second stored row named `a`. -/
def dupRowB : OrmObject :=
  { columns := [("id", Value.vstr "u2"), ("name", Value.vstr "a")],
    spec := some [], labels := [] }

/-- Claim C4 counterexample.  A `get` whose exact-match filter matches two
rows does not return an envelope: the `MultipleResultsFound` fault escapes
the verb, contradicting the claim that no input causes an uncaught
fault. -/
theorem C4_counterexample :
    sqlGet [dupRowA, dupRowB] "Project" [("name", Value.vstr "a")] =
      Except.error DbError.multipleResultsFound := by
  rfl

/-- Claim C4 witness: the amended behaviour at concrete inputs — the
not-found envelope on an empty store, and the escaped fault on the
two-match store for `update`. -/
theorem C4_witness :
    sqlGet ([] : List OrmObject) "Project" [] = Except.ok
      { success := false, data := none,
        error := some ("Project" ++ " object (" ++ kwargsRepr [] ++ ") not found") } ∧
    sqlUpdate metadata_fields [] [dupRowA, dupRowB] "Project" mergeSrcObj
      [("name", Value.vstr "a")] = Except.error DbError.multipleResultsFound :=
  ⟨(C4_error_boundary_amended metadata_fields [] [] "Project" mergeSrcObj []).1 rfl,
   (C4_error_boundary_amended metadata_fields [] [dupRowA, dupRowB] "Project" mergeSrcObj
      [("name", Value.vstr "a")]).2.2.2 dupRowA dupRowB [] (by decide)⟩

/-- A label-free Dataset object named `d`. -/
def dupDatasetObj : ApiObject :=
  { fields := [("name", Value.vstr "d"), ("description", Value.vnull),
               ("created", Value.vnull), ("updated", Value.vnull),
               ("version", Value.vstr ""), ("project_id", Value.vstr "p1"),
               ("task", Value.vstr "qa"), ("path", Value.vstr "/data")],
    labels := none }

/-- A label-free Project object named `p`. -/
def dupProjectObj : ApiObject :=
  { fields := [("name", Value.vstr "p"), ("description", Value.vnull),
               ("created", Value.vnull), ("updated", Value.vnull),
               ("version", Value.vstr "")],
    labels := none }

/-- Claim C5 (code bug, evaluated at the failing input).  The schema
declares no uniqueness constraint on `name` (the only declared constraints
are the unique `(name, parent)` pairs of the label tables, so the commit of a
second label-free Dataset named `d` violates nothing: the second create
returns `success=true` and the store holds two rows named `d`, against the
claim (and against the intent documented by the
`already exists` error message of the verb itself).  For a Project the claimed behaviour does
emerge, but only via the constructor-installed `_GENAI_FACTORY` label
colliding on `(name, parent)`: the second create of project `p` fails with
the `AlreadyExists` envelope naming the object and leaves the store
unchanged. -/
theorem C5_duplicate_name_create :
    ((sqlCreate metadata_fields ["task"] defaultCtor [] "Dataset" dupDatasetObj
      "u1").2.success = true) ∧
    ((sqlCreate metadata_fields ["task"] defaultCtor
        (sqlCreate metadata_fields ["task"] defaultCtor [] "Dataset" dupDatasetObj "u1").1
        "Dataset" dupDatasetObj "u2").2.success = true) ∧
    ((sqlCreate metadata_fields ["task"] defaultCtor
        (sqlCreate metadata_fields ["task"] defaultCtor [] "Dataset" dupDatasetObj "u1").1
        "Dataset" dupDatasetObj "u2").1.map (fun r => getVal r.columns "name") =
      [some (Value.vstr "d"), some (Value.vstr "d")]) ∧
    ((sqlCreate metadata_fields [] projectCtor
        (sqlCreate metadata_fields [] projectCtor [] "Project" dupProjectObj "uA").1
        "Project" dupProjectObj "uB").2 =
      { success := false, data := none, error := some "Project p already exists" }) ∧
    ((sqlCreate metadata_fields [] projectCtor
        (sqlCreate metadata_fields [] projectCtor [] "Project" dupProjectObj "uA").1
        "Project" dupProjectObj "uB").1 =
      (sqlCreate metadata_fields [] projectCtor [] "Project" dupProjectObj "uA").1) := by
  decide

/-- Claim C6 (confirmed).  Every envelope any of the five verbs returns
satisfies the contract: a failure envelope carries no data and a non-null
message, a success envelope carries no error.  For `get` and `update` the
contract is stated over every envelope the verb actually returns (the
multi-match case returns none — the exception escapes, see C4). -/
theorem C6_envelope_contract :
    ∀ (mf tf : List String)
      (ctor : List (String × Value) → List (String × Value) → OrmObject)
      (db : List OrmObject) (cn : String) (o : ApiObject) (uid : String)
      (fs : List (String × Value)) (extra : List String) (mode : OutputMode)
      (fls : List (String × Option Value)) (lm : Option (List String)),
      envContract (sqlCreate mf tf ctor db cn o uid).2 ∧
      envContract (sqlDelete db fs).2 ∧
      envContract (sqlList extra db mode fls lm) ∧
      (∀ resp, sqlGet db cn fs = Except.ok resp → envContract resp) ∧
      (∀ res, sqlUpdate mf tf db cn o fs = Except.ok res → envContract res.2) := by
  intro mf tf ctor db cn o uid fs extra mode fls lm
  refine ⟨?_, ?_, ?_, ?_, ?_⟩
  · by_cases h : labelPairConflict db (to_orm_object mf tf ctor o (some (Value.vstr uid)))
    · simp [sqlCreate, h, envContract]
    · simp [sqlCreate, h, envContract]
  · simp [sqlDelete, envContract]
  · simp [sqlList, envContract]
  · intro resp h
    rcases hfl : db.filter (rowMatches fs) with - | ⟨r1, rest⟩
    · simp only [sqlGet, hfl, one_or_none, Except.ok.injEq] at h
      subst h
      simp [envContract]
    · cases rest with
      | nil =>
          simp only [sqlGet, hfl, one_or_none, Except.ok.injEq] at h
          subst h
          simp [envContract]
      | cons r2 rest2 =>
          simp [sqlGet, hfl, one_or_none] at h
  · intro res h
    rcases hfl : db.filter (rowMatches fs) with - | ⟨r1, rest⟩
    · simp only [sqlUpdate, hfl, one_or_none, Except.ok.injEq] at h
      subst h
      simp [envContract]
    · cases rest with
      | nil =>
          simp only [sqlUpdate, hfl, one_or_none, Except.ok.injEq] at h
          subst h
          simp [envContract]
      | cons r2 rest2 =>
          simp [sqlUpdate, hfl, one_or_none] at h

/-- Claim C6 witness: the contract applied at concrete calls — a delete
success envelope has no error, and the not-found envelope of a `get` on
the empty store has no data and a message. -/
theorem C6_witness :
    (sqlDelete [] []).2.error = none ∧
    (({ success := false, data := none,
        error := some ("Project" ++ " object (" ++ kwargsRepr [] ++ ") not found") } :
      ApiResponse).data = none ∧
     ({ success := false, data := none,
        error := some ("Project" ++ " object (" ++ kwargsRepr [] ++ ") not found") } :
      ApiResponse).error ≠ none) :=
  ⟨((C6_envelope_contract metadata_fields [] defaultCtor [] "Project" mergeSrcObj "u"
      [] [] OutputMode.details [] none).2.1).2 rfl,
   ((C6_envelope_contract metadata_fields [] defaultCtor [] "Project" mergeSrcObj "u"
      [] [] OutputMode.details [] none).2.2.2.1
      { success := false, data := none,
        error := some ("Project" ++ " object (" ++ kwargsRepr [] ++ ") not found") }
      rfl).1 rfl⟩

/-- Claim C8 (confirmed).  A list call returns success with exactly the
rows matching the exact-equality conjunction over the supplied non-null
filters (projected by the output mode); a filter left null imposes no
constraint, and the result is the same whatever `labels_match` is
supplied — the label filter is a declared-but-unimplemented no-op. -/
theorem C8_list_filters :
    ∀ (extra : List String) (db : List OrmObject) (mode : OutputMode)
      (fls : List (String × Option Value)) (lm : Option (List String)),
      sqlList extra db mode fls lm =
        { success := true,
          data := some (process_output extra
            (db.filter (rowMatches
              (fls.filterMap (fun kv => kv.2.map (fun v => (kv.1, v)))))) mode),
          error := none } ∧
      sqlList extra db mode fls lm = sqlList extra db mode fls none ∧
      (∀ r, r ∈ db.filter (rowMatches
          (fls.filterMap (fun kv => kv.2.map (fun v => (kv.1, v))))) ↔
        (r ∈ db ∧ ∀ k v, (k, some v) ∈ fls → getVal r.columns k = some v)) := by
  intro extra db mode fls lm
  refine ⟨rfl, rfl, ?_⟩
  intro r
  rw [List.mem_filter]
  constructor
  · rintro ⟨hdb, hmatch⟩
    refine ⟨hdb, ?_⟩
    intro k v hkv
    have hmem : (k, v) ∈ fls.filterMap (fun kv => kv.2.map (fun v => (kv.1, v))) :=
      List.mem_filterMap.mpr ⟨(k, some v), hkv, rfl⟩
    exact of_decide_eq_true (List.all_eq_true.mp hmatch _ hmem)
  · rintro ⟨hdb, hall⟩
    refine ⟨hdb, ?_⟩
    apply List.all_eq_true.mpr
    intro kv hkv
    obtain ⟨⟨k0, ov⟩, hmem, heq⟩ := List.mem_filterMap.mp hkv
    cases ov with
    | none => simp at heq
    | some v0 =>
        simp only [Option.map_some] at heq
        cases heq
        exact decide_eq_true (hall k0 v0 hmem)

/-- A stored row named `a` with the empty version. -/
def listRowA : OrmObject :=
  { columns := [("name", Value.vstr "a"), ("version", Value.vstr "")],
    spec := some [], labels := [] }

/-- Claim C8 witness: a concrete list call with one null filter, one
non-null filter, and a supplied label filter. -/
theorem C8_witness :
    sqlList [] [listRowA] OutputMode.names
        [("version", some (Value.vstr "")), ("owner_id", none)] (some ["env"]) =
      { success := true,
        data := some (process_output [] ([listRowA].filter (rowMatches
          ([("version", some (Value.vstr "")), ("owner_id", none)].filterMap
            (fun kv => kv.2.map (fun v => (kv.1, v)))))) OutputMode.names),
        error := none } :=
  (C8_list_filters [] [listRowA] OutputMode.names
    [("version", some (Value.vstr "")), ("owner_id", none)] (some ["env"])).1

/-- Claim C9 (confirmed).  A delete removes exactly the rows matching the
filter (each row carries its labels with it, so the owned labels go too),
returns the success envelope unconditionally, and on a filter matching
nothing leaves the store untouched. -/
theorem C9_delete_idempotent :
    ∀ (db : List OrmObject) (fs : List (String × Value)),
      (sqlDelete db fs).2 = { success := true, data := none, error := none } ∧
      (sqlDelete db fs).1 = db.filter (fun r => !(rowMatches fs r)) ∧
      (db.filter (rowMatches fs) = [] → (sqlDelete db fs).1 = db) := by
  intro db fs
  refine ⟨rfl, rfl, ?_⟩
  intro h
  have hall := List.filter_eq_nil_iff.mp h
  apply List.filter_eq_self.mpr
  intro a ha
  simp [hall a ha]

/-- Claim C9 witness: deleting a non-existent name from a concrete store
returns success and leaves the store unchanged. -/
theorem C9_witness :
    (sqlDelete [listRowA] [("name", Value.vstr "zzz")]).2 =
      { success := true, data := none, error := none } ∧
    (sqlDelete [listRowA] [("name", Value.vstr "zzz")]).1 = [listRowA] :=
  ⟨(C9_delete_idempotent [listRowA] [("name", Value.vstr "zzz")]).1,
   (C9_delete_idempotent [listRowA] [("name", Value.vstr "zzz")]).2.2 (by decide)⟩

end GenaiFactory
